import Mathlib

/-!
Verification of the whisper-smart dictation session controller.

Shallow embedding of `src/gpui-rust-whispersmart`:
  - `model.rs`    : `UiState`, `DictationSession`
  - `provider.rs` : `ProviderResult` (the `SttProvider` trait becomes part of `Env`)
  - `services.rs` : the `AudioCaptureService` trait becomes part of `Env`
  - `clipboard.rs`: the `ClipboardInserter` trait becomes part of `Env`
  - `state_machine.rs` : `DictationStateMachine` and its four operations
  - `settings.rs` : `AppSettings`
  - `store.rs`    : `SettingsStore.load` / `SettingsStore.save`

The collaborators are Rust trait objects injected into the controller; each
trait method is modelled by one field of an environment `Env` giving the
result that call returns (`Except String α` embeds `anyhow::Result<α>`, the
error payload being the human-readable reason string).  Within one controller
operation every collaborator method is invoked at most once, so a per-method
result is a faithful model of an arbitrary deterministic stub.  Each
operation additionally returns the ordered trace of collaborator calls it
made, so that claims about which collaborator was invoked (and with which
argument) are statable.

Audio samples (`Vec<f32>`) are modelled as `List Rat`: the controller never
inspects sample values, it only passes the chunk through to the provider, so
only the payload's identity matters.  Rust `str::trim` is modelled by
`rustTrim` below; on the ASCII whitespace the claims mention the two agree.
-/

deriving instance DecidableEq for Except

namespace WhisperSmart

/-- `UiState` from `model.rs`: the closed set of UI states. -/
inductive UiState where
  | Idle
  | Recording
  | Transcribing
  | Success
  | Error (reason : String)
  deriving DecidableEq, Repr

/-- `DictationSession` from `model.rs`. -/
structure DictationSession where
  partial_text : String
  final_text : Option String
  deriving DecidableEq, Repr

/-- `DictationSession::default()`: empty partial text, no final text. -/
def DictationSession.default : DictationSession :=
  { partial_text := "", final_text := none }

/-- Audio chunk payload (`Vec<f32>`); sample values are never inspected by
the controller, so rationals stand in for the floats. -/
abbrev AudioChunk := List Rat

/-- `ProviderResult` from `provider.rs`.  (The Rust field `is_partial` is
named `isPartial` here.) -/
structure ProviderResult where
  text : String
  isPartial : Bool
  deriving DecidableEq, Repr

/-- One collaborator invocation made by a controller operation, in order. -/
inductive CallEvent where
  | beginSession
  | startCapture
  | readMonoChunk
  | feedAudioChunk (pcm : AudioChunk)
  | stopCapture
  | endSession
  | insertText (text : String)
  deriving DecidableEq, Repr

/-- The injected collaborators (`SttProvider`, `AudioCaptureService`,
`ClipboardInserter`): one field per trait method, giving the result that
method returns when the controller calls it. -/
structure Env where
  begin_session : Except String Unit
  start_capture : Except String Unit
  read_mono_chunk : Except String AudioChunk
  feed_audio_chunk : AudioChunk → Except String Unit
  stop_capture : Except String Unit
  end_session : Except String ProviderResult
  insert_text : String → Except String Unit

/-- The observable controller state (`state` and `session` fields of
`DictationStateMachine` in `state_machine.rs`; the boxed collaborators live
in `Env`). -/
structure DictationStateMachine where
  state : UiState
  session : DictationSession
  deriving DecidableEq, Repr

/-- `DictationStateMachine::new`: starts `Idle` with a default session. -/
def DictationStateMachine.new : DictationStateMachine :=
  { state := UiState.Idle, session := DictationSession.default }

/-- Embedding of Rust `str::trim`: remove leading and trailing whitespace
characters.  (Rust trims per `char::is_whitespace`; on the ASCII whitespace
the claims involve, `Char.isWhitespace` agrees.) -/
def rustTrim (s : String) : String :=
  String.mk (((s.data.dropWhile Char.isWhitespace).reverse.dropWhile
      Char.isWhitespace).reverse)

/-- Result of one controller operation: the controller state after the call,
the ordered collaborator-call trace, and the `Result` value returned to the
caller. -/
structure StepResult where
  machine : DictationStateMachine
  calls : List CallEvent
  result : Except String Unit
  deriving DecidableEq, Repr

/-- `DictationStateMachine::start_recording` (`state_machine.rs:33-39`):
`begin_session()?; start_capture()?;` then replace the session with a fresh
default and set state `Recording`.  A `?` failure returns the error with the
machine unchanged. -/
def start_recording (env : Env) (m : DictationStateMachine) : StepResult :=
  match env.begin_session with
  | Except.error e =>
      { machine := m, calls := [CallEvent.beginSession], result := Except.error e }
  | Except.ok _ =>
    match env.start_capture with
    | Except.error e =>
        { machine := m,
          calls := [CallEvent.beginSession, CallEvent.startCapture],
          result := Except.error e }
    | Except.ok _ =>
        { machine := { state := UiState.Recording, session := DictationSession.default },
          calls := [CallEvent.beginSession, CallEvent.startCapture],
          result := Except.ok () }

/-- `DictationStateMachine::stop_and_transcribe` (`state_machine.rs:41-58`):
set state `Transcribing`; `read_mono_chunk()?`, `feed_audio_chunk(&chunk)?`,
`stop_capture()?`, `end_session()?`; record `final_text`; if the trimmed
text is non-empty, `insert_text(&text)?` then state `Success`, else state
`Error("No transcript returned")`.  Each `?` failure returns the error with
the machine as mutated so far. -/
def stop_and_transcribe (env : Env) (m : DictationStateMachine) : StepResult :=
  let m1 : DictationStateMachine := { m with state := UiState.Transcribing }
  match env.read_mono_chunk with
  | Except.error e =>
      { machine := m1, calls := [CallEvent.readMonoChunk], result := Except.error e }
  | Except.ok chunk =>
    match env.feed_audio_chunk chunk with
    | Except.error e =>
        { machine := m1,
          calls := [CallEvent.readMonoChunk, CallEvent.feedAudioChunk chunk],
          result := Except.error e }
    | Except.ok _ =>
      match env.stop_capture with
      | Except.error e =>
          { machine := m1,
            calls := [CallEvent.readMonoChunk, CallEvent.feedAudioChunk chunk,
                      CallEvent.stopCapture],
            result := Except.error e }
      | Except.ok _ =>
        match env.end_session with
        | Except.error e =>
            { machine := m1,
              calls := [CallEvent.readMonoChunk, CallEvent.feedAudioChunk chunk,
                        CallEvent.stopCapture, CallEvent.endSession],
              result := Except.error e }
        | Except.ok result =>
          let m2 : DictationStateMachine :=
            { m1 with session := { m1.session with final_text := some result.text } }
          if !(rustTrim result.text).isEmpty then
            match env.insert_text result.text with
            | Except.error e =>
                { machine := m2,
                  calls := [CallEvent.readMonoChunk, CallEvent.feedAudioChunk chunk,
                            CallEvent.stopCapture, CallEvent.endSession,
                            CallEvent.insertText result.text],
                  result := Except.error e }
            | Except.ok _ =>
                { machine := { m2 with state := UiState.Success },
                  calls := [CallEvent.readMonoChunk, CallEvent.feedAudioChunk chunk,
                            CallEvent.stopCapture, CallEvent.endSession,
                            CallEvent.insertText result.text],
                  result := Except.ok () }
          else
            { machine := { m2 with state := UiState.Error "No transcript returned" },
              calls := [CallEvent.readMonoChunk, CallEvent.feedAudioChunk chunk,
                        CallEvent.stopCapture, CallEvent.endSession],
              result := Except.ok () }

/-- `DictationStateMachine::reset_to_idle` (`state_machine.rs:60-63`):
state := Idle, `partial_text.clear()`. -/
def reset_to_idle (m : DictationStateMachine) : DictationStateMachine :=
  { m with state := UiState.Idle,
           session := { m.session with partial_text := "" } }

/-- `DictationStateMachine::fail` (`state_machine.rs:65-67`):
state := Error(reason). -/
def fail (m : DictationStateMachine) (reason : String) : DictationStateMachine :=
  { m with state := UiState.Error reason }

/-- Arguments of the `insert_text` invocations in a call trace, in order. -/
def insertArgs : List CallEvent → List String
  | [] => []
  | CallEvent.insertText t :: rest => t :: insertArgs rest
  | _ :: rest => insertArgs rest

/-- The spec §3 invariant: `final_text.is_some()` implies `UiState` is
`Success` or `Error`. -/
def stateIsResult : UiState → Bool
  | UiState.Success => true
  | UiState.Error _ => true
  | _ => false

/-- `finalTextInv m`: whenever `session.final_text` is `Some`, the state is
`Success` or `Error` (spec §3). -/
def finalTextInv (m : DictationStateMachine) : Prop :=
  m.session.final_text.isSome = true → stateIsResult m.state = true

instance (m : DictationStateMachine) : Decidable (finalTextInv m) := by
  unfold finalTextInv; infer_instance

/-- `AppSettings` from `settings.rs`. -/
structure AppSettings where
  global_hotkey : String
  provider : String
  auto_insert : Bool
  deriving DecidableEq, Repr

/-- `AppSettings::default()` from `settings.rs`. -/
def AppSettings.default : AppSettings :=
  { global_hotkey := "Option+Space", provider := "placeholder", auto_insert := true }

/-- A JSON document, at the value level: the `serde_json` text layer
(printing and lexing) is external-crate internals and is abstracted to the
parsed tree it denotes. -/
inductive Json where
  | null
  | bool (b : Bool)
  | num (n : Int)
  | str (s : String)
  | arr (elems : List Json)
  | obj (fields : List (String × Json))

/-- First value bound to `key` in a JSON object's field list. -/
def Json.lookup (fields : List (String × Json)) (key : String) : Option Json :=
  match fields with
  | [] => none
  | (k, v) :: rest => if k = key then some v else Json.lookup rest key

/-- `serde` deserialization of a JSON value into a `String` field. -/
def Json.asString : Json → Except String String
  | Json.str s => Except.ok s
  | _ => Except.error "invalid type: expected a string"

/-- `serde` deserialization of a JSON value into a `bool` field. -/
def Json.asBool : Json → Except String Bool
  | Json.bool b => Except.ok b
  | _ => Except.error "invalid type: expected a boolean"

/-- `serde::Serialize` as derived for `AppSettings` in `settings.rs`:
a JSON object with the three fields in declaration order. -/
def AppSettings.toJson (s : AppSettings) : Json :=
  Json.obj [("global_hotkey", Json.str s.global_hotkey),
            ("provider", Json.str s.provider),
            ("auto_insert", Json.bool s.auto_insert)]

/-- `serde::Deserialize` as derived for `AppSettings` in `settings.rs`:
expects an object carrying all three fields with the right types. -/
def AppSettings.fromJson (j : Json) : Except String AppSettings :=
  match j with
  | Json.obj fields =>
    match Json.lookup fields "global_hotkey" with
    | none => Except.error "missing field global_hotkey"
    | some jh =>
      match Json.asString jh with
      | Except.error e => Except.error e
      | Except.ok hotkey =>
        match Json.lookup fields "provider" with
        | none => Except.error "missing field provider"
        | some jp =>
          match Json.asString jp with
          | Except.error e => Except.error e
          | Except.ok prov =>
            match Json.lookup fields "auto_insert" with
            | none => Except.error "missing field auto_insert"
            | some ja =>
              match Json.asBool ja with
              | Except.error e => Except.error e
              | Except.ok auto =>
                Except.ok { global_hotkey := hotkey, provider := prov, auto_insert := auto }
  | _ => Except.error "invalid type: expected an object"

/-- Content of the settings file at the store's path: absent, a parseable
JSON document, or text that is not valid JSON. -/
inductive SettingsFile where
  | absent
  | document (j : Json)
  | malformed

/-- `SettingsStore::load` from `store.rs:16-26`: defaults when the file does
not exist; otherwise parse the JSON (a parse failure is a hard error).
OS-level read failures are outside the model. -/
def SettingsStore.load : SettingsFile → Except String AppSettings
  | SettingsFile.absent => Except.ok AppSettings.default
  | SettingsFile.document j => AppSettings.fromJson j
  | SettingsFile.malformed => Except.error "failed parsing settings json"

/-- `SettingsStore::save` from `store.rs:28-36`: serialize the settings and
fully overwrite the file.  Directory creation and OS-level write failures
are outside the model. -/
def SettingsStore.save (s : AppSettings) : SettingsFile :=
  SettingsFile.document (AppSettings.toJson s)

/-! ## Concrete environments for witnesses and counterexamples -/

/-- All collaborators succeed; `end_session` yields `txt` as the final
transcript; `insert_text` succeeds. -/
def envOkWith (txt : String) : Env :=
  { begin_session := Except.ok ()
    start_capture := Except.ok ()
    read_mono_chunk := Except.ok [0]
    feed_audio_chunk := fun _ => Except.ok ()
    stop_capture := Except.ok ()
    end_session := Except.ok { text := txt, isPartial := false }
    insert_text := fun _ => Except.ok () }

/-- Like `envOkWith` but `insert_text` fails with reason `e`. -/
def envInsertFail (txt e : String) : Env :=
  { envOkWith txt with insert_text := fun _ => Except.error e }

/-- Like `envOkWith` but `begin_session` fails with reason `e`. -/
def envBeginFail (txt e : String) : Env :=
  { envOkWith txt with begin_session := Except.error e }

/-- Like `envOkWith` but `start_capture` fails with reason `e`. -/
def envCaptureFail (txt e : String) : Env :=
  { envOkWith txt with start_capture := Except.error e }

/-! ## Helper equation lemmas -/

/-- When `begin_session` and `start_capture` both succeed, `start_recording`
installs a fresh session and enters `Recording`. -/
theorem start_recording_ok_eq (env : Env) (m : DictationStateMachine)
    (hb : env.begin_session = Except.ok ())
    (hc : env.start_capture = Except.ok ()) :
    start_recording env m =
      { machine := { state := UiState.Recording, session := DictationSession.default },
        calls := [CallEvent.beginSession, CallEvent.startCapture],
        result := Except.ok () } := by
  unfold start_recording
  rw [hb, hc]

/-- When the pipeline succeeds through `end_session` with a transcript whose
trimmed text is non-empty and `insert_text` succeeds, `stop_and_transcribe`
ends in `Success` with `final_text` set and the transcript inserted. -/
theorem stop_success_eq (env : Env) (m : DictationStateMachine)
    (chunk : AudioChunk) (pr : ProviderResult)
    (hr : env.read_mono_chunk = Except.ok chunk)
    (hf : env.feed_audio_chunk chunk = Except.ok ())
    (hs : env.stop_capture = Except.ok ())
    (he : env.end_session = Except.ok pr)
    (hne : (rustTrim pr.text).isEmpty = false)
    (hi : env.insert_text pr.text = Except.ok ()) :
    stop_and_transcribe env m =
      { machine := { state := UiState.Success,
                     session := { partial_text := m.session.partial_text,
                                  final_text := some pr.text } },
        calls := [CallEvent.readMonoChunk, CallEvent.feedAudioChunk chunk,
                  CallEvent.stopCapture, CallEvent.endSession,
                  CallEvent.insertText pr.text],
        result := Except.ok () } := by
  unfold stop_and_transcribe
  simp only [hr, hf, hs, he]
  simp [hne, hi]

/-- When the pipeline succeeds through `end_session` with a non-empty
transcript but `insert_text` fails, `stop_and_transcribe` returns the
insertion error with the state still `Transcribing` and `final_text` set. -/
theorem stop_insert_fail_eq (env : Env) (m : DictationStateMachine)
    (chunk : AudioChunk) (pr : ProviderResult) (e : String)
    (hr : env.read_mono_chunk = Except.ok chunk)
    (hf : env.feed_audio_chunk chunk = Except.ok ())
    (hs : env.stop_capture = Except.ok ())
    (he : env.end_session = Except.ok pr)
    (hne : (rustTrim pr.text).isEmpty = false)
    (hi : env.insert_text pr.text = Except.error e) :
    stop_and_transcribe env m =
      { machine := { state := UiState.Transcribing,
                     session := { partial_text := m.session.partial_text,
                                  final_text := some pr.text } },
        calls := [CallEvent.readMonoChunk, CallEvent.feedAudioChunk chunk,
                  CallEvent.stopCapture, CallEvent.endSession,
                  CallEvent.insertText pr.text],
        result := Except.error e } := by
  unfold stop_and_transcribe
  simp only [hr, hf, hs, he]
  simp [hne, hi]

/-- When the pipeline succeeds through `end_session` but the transcript is
empty after trimming, `stop_and_transcribe` ends in
`Error "No transcript returned"` without calling the inserter. -/
theorem stop_empty_eq (env : Env) (m : DictationStateMachine)
    (chunk : AudioChunk) (pr : ProviderResult)
    (hr : env.read_mono_chunk = Except.ok chunk)
    (hf : env.feed_audio_chunk chunk = Except.ok ())
    (hs : env.stop_capture = Except.ok ())
    (he : env.end_session = Except.ok pr)
    (hemp : (rustTrim pr.text).isEmpty = true) :
    stop_and_transcribe env m =
      { machine := { state := UiState.Error "No transcript returned",
                     session := { partial_text := m.session.partial_text,
                                  final_text := some pr.text } },
        calls := [CallEvent.readMonoChunk, CallEvent.feedAudioChunk chunk,
                  CallEvent.stopCapture, CallEvent.endSession],
        result := Except.ok () } := by
  unfold stop_and_transcribe
  simp only [hr, hf, hs, he]
  simp [hemp]

/-- When `read_mono_chunk` fails, `stop_and_transcribe` returns that error
with the state already `Transcribing`. -/
theorem stop_read_fail_eq (env : Env) (m : DictationStateMachine) (e : String)
    (hr : env.read_mono_chunk = Except.error e) :
    stop_and_transcribe env m =
      { machine := { m with state := UiState.Transcribing },
        calls := [CallEvent.readMonoChunk],
        result := Except.error e } := by
  unfold stop_and_transcribe
  simp only [hr]

/-- When `feed_audio_chunk` fails, `stop_and_transcribe` returns that error
with the state already `Transcribing`. -/
theorem stop_feed_fail_eq (env : Env) (m : DictationStateMachine)
    (chunk : AudioChunk) (e : String)
    (hr : env.read_mono_chunk = Except.ok chunk)
    (hf : env.feed_audio_chunk chunk = Except.error e) :
    stop_and_transcribe env m =
      { machine := { m with state := UiState.Transcribing },
        calls := [CallEvent.readMonoChunk, CallEvent.feedAudioChunk chunk],
        result := Except.error e } := by
  unfold stop_and_transcribe
  simp only [hr, hf]

/-- When `stop_capture` fails, `stop_and_transcribe` returns that error with
the state already `Transcribing`. -/
theorem stop_capture_fail_eq (env : Env) (m : DictationStateMachine)
    (chunk : AudioChunk) (e : String)
    (hr : env.read_mono_chunk = Except.ok chunk)
    (hf : env.feed_audio_chunk chunk = Except.ok ())
    (hs : env.stop_capture = Except.error e) :
    stop_and_transcribe env m =
      { machine := { m with state := UiState.Transcribing },
        calls := [CallEvent.readMonoChunk, CallEvent.feedAudioChunk chunk,
                  CallEvent.stopCapture],
        result := Except.error e } := by
  unfold stop_and_transcribe
  simp only [hr, hf, hs]

/-- When `end_session` fails, `stop_and_transcribe` returns that error with
the state already `Transcribing`. -/
theorem stop_end_fail_eq (env : Env) (m : DictationStateMachine)
    (chunk : AudioChunk) (e : String)
    (hr : env.read_mono_chunk = Except.ok chunk)
    (hf : env.feed_audio_chunk chunk = Except.ok ())
    (hs : env.stop_capture = Except.ok ())
    (he : env.end_session = Except.error e) :
    stop_and_transcribe env m =
      { machine := { m with state := UiState.Transcribing },
        calls := [CallEvent.readMonoChunk, CallEvent.feedAudioChunk chunk,
                  CallEvent.stopCapture, CallEvent.endSession],
        result := Except.error e } := by
  unfold stop_and_transcribe
  simp only [hr, hf, hs, he]

/-! ## Claim theorems -/

/-- C1: If the provider's `end_session` returns final text `"hello world"`
and the text inserter succeeds (the audio collaborators succeeding as in the
scenario's stubs), then after `start_recording(); stop_and_transcribe()`
from `Idle` the state is `Success`, `session.final_text` is
`some "hello world"`, and `insert_text` was invoked exactly once, with
argument `"hello world"`. -/
theorem C1_happy_path (env : Env) (chunk : AudioChunk) (p : Bool)
    (hb : env.begin_session = Except.ok ())
    (hc : env.start_capture = Except.ok ())
    (hr : env.read_mono_chunk = Except.ok chunk)
    (hf : env.feed_audio_chunk chunk = Except.ok ())
    (hs : env.stop_capture = Except.ok ())
    (he : env.end_session = Except.ok { text := "hello world", isPartial := p })
    (hi : env.insert_text "hello world" = Except.ok ()) :
    (stop_and_transcribe env (start_recording env DictationStateMachine.new).machine).machine.state
      = UiState.Success ∧
    (stop_and_transcribe env (start_recording env DictationStateMachine.new).machine).machine.session.final_text
      = some "hello world" ∧
    insertArgs ((start_recording env DictationStateMachine.new).calls ++
        (stop_and_transcribe env (start_recording env DictationStateMachine.new).machine).calls)
      = ["hello world"] := by
  have hne : (rustTrim "hello world").isEmpty = false := by decide
  rw [start_recording_ok_eq env _ hb hc,
      stop_success_eq env _ chunk { text := "hello world", isPartial := p } hr hf hs he
        hne hi]
  refine ⟨rfl, rfl, ?_⟩
  simp [insertArgs]

/-- C1 witness: the scenario realised with the all-succeeding environment. -/
theorem C1_happy_path_witness :
    (stop_and_transcribe (envOkWith "hello world")
        (start_recording (envOkWith "hello world") DictationStateMachine.new).machine).machine.state
      = UiState.Success ∧
    (stop_and_transcribe (envOkWith "hello world")
        (start_recording (envOkWith "hello world") DictationStateMachine.new).machine).machine.session.final_text
      = some "hello world" ∧
    insertArgs ((start_recording (envOkWith "hello world") DictationStateMachine.new).calls ++
        (stop_and_transcribe (envOkWith "hello world")
          (start_recording (envOkWith "hello world") DictationStateMachine.new).machine).calls)
      = ["hello world"] :=
  C1_happy_path (envOkWith "hello world") [0] false rfl rfl rfl rfl rfl rfl rfl

/-- C2: whenever the provider's `end_session` returns a text that is empty
after trimming whitespace (the pipeline before it succeeding), the state
becomes `Error "No transcript returned"` and `insert_text` is never
invoked — irrespective of how the inserter would behave. -/
theorem C2_empty_transcript (env : Env) (m : DictationStateMachine)
    (chunk : AudioChunk) (t : String) (p : Bool)
    (hr : env.read_mono_chunk = Except.ok chunk)
    (hf : env.feed_audio_chunk chunk = Except.ok ())
    (hs : env.stop_capture = Except.ok ())
    (he : env.end_session = Except.ok { text := t, isPartial := p })
    (ht : rustTrim t = "") :
    (stop_and_transcribe env m).machine.state = UiState.Error "No transcript returned" ∧
    insertArgs (stop_and_transcribe env m).calls = [] := by
  have hemp : (rustTrim ({ text := t, isPartial := p } : ProviderResult).text).isEmpty = true := by
    show (rustTrim t).isEmpty = true
    rw [ht]
    decide
  rw [stop_empty_eq env m chunk _ hr hf hs he hemp]
  refine ⟨rfl, ?_⟩
  simp [insertArgs]

/-- C2 witness: a whitespace-only transcript realised concretely. -/
theorem C2_empty_transcript_witness :
    (stop_and_transcribe (envOkWith "  ")
        { state := UiState.Recording, session := DictationSession.default }).machine.state
      = UiState.Error "No transcript returned" ∧
    insertArgs (stop_and_transcribe (envOkWith "  ")
        { state := UiState.Recording, session := DictationSession.default }).calls = [] :=
  C2_empty_transcript (envOkWith "  ")
    { state := UiState.Recording, session := DictationSession.default }
    [0] "  " false rfl rfl rfl rfl (by decide)

/-- C3 counterexample: with a non-empty transcript and an inserter failing
with `"no focus"`, the state after `stop_and_transcribe` is `Transcribing`,
not `Error "no focus"` as the claim states (the `?` operator propagates the
insertion error before the state is updated). -/
theorem C3_counterexample :
    (stop_and_transcribe (envInsertFail "hello world" "no focus")
        { state := UiState.Recording, session := DictationSession.default }).machine.state
      = UiState.Transcribing ∧
    ¬ ((stop_and_transcribe (envInsertFail "hello world" "no focus")
        { state := UiState.Recording, session := DictationSession.default }).machine.state
      = UiState.Error "no focus") := by
  decide

/-- C3 amended: if the provider returns a non-empty final transcript and
`insert_text` fails with error `e`, then `stop_and_transcribe` returns the
error `e` to the caller, the state remains `Transcribing` (it is not set to
`Error`), and `session.final_text` still holds the obtained transcript. -/
theorem C3_insert_failure (env : Env) (m : DictationStateMachine)
    (chunk : AudioChunk) (t e : String) (p : Bool)
    (hr : env.read_mono_chunk = Except.ok chunk)
    (hf : env.feed_audio_chunk chunk = Except.ok ())
    (hs : env.stop_capture = Except.ok ())
    (he : env.end_session = Except.ok { text := t, isPartial := p })
    (hne : (rustTrim t).isEmpty = false)
    (hi : env.insert_text t = Except.error e) :
    (stop_and_transcribe env m).result = Except.error e ∧
    (stop_and_transcribe env m).machine.state = UiState.Transcribing ∧
    (stop_and_transcribe env m).machine.session.final_text = some t := by
  rw [stop_insert_fail_eq env m chunk _ e hr hf hs he hne hi]
  exact ⟨rfl, rfl, rfl⟩

/-- C3 witness: the amended behaviour realised with a concrete failing
inserter. -/
theorem C3_insert_failure_witness :
    (stop_and_transcribe (envInsertFail "hello world" "no focus")
        DictationStateMachine.new).result = Except.error "no focus" ∧
    (stop_and_transcribe (envInsertFail "hello world" "no focus")
        DictationStateMachine.new).machine.state = UiState.Transcribing ∧
    (stop_and_transcribe (envInsertFail "hello world" "no focus")
        DictationStateMachine.new).machine.session.final_text = some "hello world" :=
  C3_insert_failure (envInsertFail "hello world" "no focus") DictationStateMachine.new
    [0] "hello world" "no focus" false rfl rfl rfl rfl (by decide) rfl

/-- C4 counterexample: calling `start_recording` while `Recording`, with
succeeding collaborators, returns `Ok` (no `AlreadyActive` error) and
replaces the session (the previous `partial_text` `"hi"` is discarded). -/
theorem C4_counterexample :
    (start_recording (envOkWith "x")
        { state := UiState.Recording,
          session := { partial_text := "hi", final_text := none } }).result
      = Except.ok () ∧
    (start_recording (envOkWith "x")
        { state := UiState.Recording,
          session := { partial_text := "hi", final_text := none } }).machine.session.partial_text
      = "" := by
  decide

/-- C4 amended: `start_recording` performs no busy-state check: called while
`Recording` or `Transcribing` with collaborators succeeding, it returns
`Ok`, re-opens the provider session and capture, replaces the session with a
fresh one and sets the state to `Recording`. -/
theorem C4_no_busy_check (env : Env) (m : DictationStateMachine)
    (hbusy : m.state = UiState.Recording ∨ m.state = UiState.Transcribing)
    (hb : env.begin_session = Except.ok ())
    (hc : env.start_capture = Except.ok ()) :
    (start_recording env m).result = Except.ok () ∧
    (start_recording env m).machine =
      { state := UiState.Recording, session := DictationSession.default } ∧
    (start_recording env m).calls = [CallEvent.beginSession, CallEvent.startCapture] := by
  rw [start_recording_ok_eq env m hb hc]
  exact ⟨rfl, rfl, rfl⟩

/-- C4 witness: the amended behaviour realised from a `Recording` state. -/
theorem C4_no_busy_check_witness :
    (start_recording (envOkWith "x")
        { state := UiState.Recording,
          session := { partial_text := "hi", final_text := none } }).result = Except.ok () ∧
    (start_recording (envOkWith "x")
        { state := UiState.Recording,
          session := { partial_text := "hi", final_text := none } }).machine =
      { state := UiState.Recording, session := DictationSession.default } ∧
    (start_recording (envOkWith "x")
        { state := UiState.Recording,
          session := { partial_text := "hi", final_text := none } }).calls
      = [CallEvent.beginSession, CallEvent.startCapture] :=
  C4_no_busy_check (envOkWith "x")
    { state := UiState.Recording, session := { partial_text := "hi", final_text := none } }
    (Or.inl rfl) rfl rfl

/-- C5 counterexample: calling `stop_and_transcribe` from `Idle` with
succeeding collaborators returns `Ok` (no invalid-transition error) and the
state changes all the way to `Success`. -/
theorem C5_counterexample :
    DictationStateMachine.new.state = UiState.Idle ∧
    (stop_and_transcribe (envOkWith "hi") DictationStateMachine.new).result = Except.ok () ∧
    (stop_and_transcribe (envOkWith "hi") DictationStateMachine.new).machine.state
      = UiState.Success := by
  decide

/-- C5 amended: `stop_and_transcribe` performs no state check: called while
`Idle` it immediately enters `Transcribing` and runs the full pipeline; with
succeeding collaborators and a non-empty transcript it returns `Ok` and ends
in `Success`. -/
theorem C5_no_idle_check (env : Env) (m : DictationStateMachine)
    (hm : m.state = UiState.Idle)
    (chunk : AudioChunk) (t : String) (p : Bool)
    (hr : env.read_mono_chunk = Except.ok chunk)
    (hf : env.feed_audio_chunk chunk = Except.ok ())
    (hs : env.stop_capture = Except.ok ())
    (he : env.end_session = Except.ok { text := t, isPartial := p })
    (hne : (rustTrim t).isEmpty = false)
    (hi : env.insert_text t = Except.ok ()) :
    (stop_and_transcribe env m).result = Except.ok () ∧
    (stop_and_transcribe env m).machine.state = UiState.Success := by
  rw [stop_success_eq env m chunk _ hr hf hs he hne hi]
  exact ⟨rfl, rfl⟩

/-- C5 witness: the amended behaviour realised from `Idle`. -/
theorem C5_no_idle_check_witness :
    (stop_and_transcribe (envOkWith "hi") DictationStateMachine.new).result = Except.ok () ∧
    (stop_and_transcribe (envOkWith "hi") DictationStateMachine.new).machine.state
      = UiState.Success :=
  C5_no_idle_check (envOkWith "hi") DictationStateMachine.new rfl
    [0] "hi" false rfl rfl rfl rfl (by decide) rfl

/-- C6 counterexample: when `begin_session` fails (reason
`"ProviderUnavailable"`) from `Idle`, the error is returned but the state
stays `Idle` — it does not become `Error` as the claim states; and when
`begin_session` succeeds but `start_capture` fails, the call trace shows the
provider session is never closed (`end_session` is not called) before the
error is surfaced. -/
theorem C6_counterexample :
    (start_recording (envBeginFail "x" "ProviderUnavailable") DictationStateMachine.new).result
      = Except.error "ProviderUnavailable" ∧
    (start_recording (envBeginFail "x" "ProviderUnavailable") DictationStateMachine.new).machine.state
      = UiState.Idle ∧
    (start_recording (envCaptureFail "x" "CaptureStateError") DictationStateMachine.new).machine.state
      = UiState.Idle ∧
    (start_recording (envCaptureFail "x" "CaptureStateError") DictationStateMachine.new).calls
      = [CallEvent.beginSession, CallEvent.startCapture] := by
  decide

/-- C6 amended: if `begin_session` or `start_capture` fails during
`start_recording`, that error is returned to the caller, but the controller
state and session are left entirely unchanged (no transition to `Error`),
and no cleanup occurs: neither `end_session` nor `stop_capture` is called,
so a provider session already opened stays open. -/
theorem C6_open_failure (env : Env) (m : DictationStateMachine) (e : String)
    (h : env.begin_session = Except.error e ∨
         (env.begin_session = Except.ok () ∧ env.start_capture = Except.error e)) :
    (start_recording env m).result = Except.error e ∧
    (start_recording env m).machine = m ∧
    CallEvent.endSession ∉ (start_recording env m).calls ∧
    CallEvent.stopCapture ∉ (start_recording env m).calls := by
  unfold start_recording
  rcases h with hb | ⟨hb, hc⟩
  · simp [hb]
  · simp [hb, hc]

/-- C6 witness: the amended behaviour realised with a failing
`begin_session`. -/
theorem C6_open_failure_witness :
    (start_recording (envBeginFail "x" "ProviderUnavailable") DictationStateMachine.new).result
      = Except.error "ProviderUnavailable" ∧
    (start_recording (envBeginFail "x" "ProviderUnavailable") DictationStateMachine.new).machine
      = DictationStateMachine.new ∧
    CallEvent.endSession ∉
      (start_recording (envBeginFail "x" "ProviderUnavailable") DictationStateMachine.new).calls ∧
    CallEvent.stopCapture ∉
      (start_recording (envBeginFail "x" "ProviderUnavailable") DictationStateMachine.new).calls :=
  C6_open_failure (envBeginFail "x" "ProviderUnavailable") DictationStateMachine.new
    "ProviderUnavailable" (Or.inl rfl)

/-- C7 counterexample: the invariant "`final_text` is `Some` implies the
state is `Success` or `Error`" holds in the state
`(Success, final_text = some "hello")` but is destroyed by `reset_to_idle`,
which forces `Idle` while leaving `final_text` untouched. -/
theorem C7_counterexample :
    finalTextInv { state := UiState.Success,
                   session := { partial_text := "", final_text := some "hello" } } ∧
    ¬ finalTextInv (reset_to_idle
        { state := UiState.Success,
          session := { partial_text := "", final_text := some "hello" } }) := by
  decide

/-- C7 amended: the invariant "`final_text` is `Some` implies the state is
`Success` or `Error`" holds for `new`, is preserved by `start_recording` and
by `fail`, and is established by `stop_and_transcribe` whenever it returns
`Ok`; it is not preserved by `reset_to_idle` (which keeps `final_text` while
forcing `Idle`) nor by `stop_and_transcribe` when `insert_text` fails (which
leaves `Transcribing` with `final_text` set). -/
theorem C7_invariant :
    finalTextInv DictationStateMachine.new ∧
    (∀ (env : Env) (m : DictationStateMachine),
      finalTextInv m → finalTextInv (start_recording env m).machine) ∧
    (∀ (m : DictationStateMachine) (reason : String), finalTextInv (fail m reason)) ∧
    (∀ (env : Env) (m : DictationStateMachine),
      (stop_and_transcribe env m).result = Except.ok () →
      finalTextInv (stop_and_transcribe env m).machine) := by
  refine ⟨by decide, ?_, ?_, ?_⟩
  · intro env m hm
    unfold start_recording
    cases hb : env.begin_session with
    | error e => simpa using hm
    | ok u =>
      cases hc : env.start_capture with
      | error e => simpa using hm
      | ok v => simp [finalTextInv, DictationSession.default]
  · intro m reason
    intro h
    rfl
  · intro env m h
    cases hr : env.read_mono_chunk with
    | error e => rw [stop_read_fail_eq env m e hr] at h; exact Except.noConfusion h
    | ok chunk =>
      cases hf : env.feed_audio_chunk chunk with
      | error e => rw [stop_feed_fail_eq env m chunk e hr hf] at h; exact Except.noConfusion h
      | ok u =>
        cases hs : env.stop_capture with
        | error e => rw [stop_capture_fail_eq env m chunk e hr hf hs] at h; exact Except.noConfusion h
        | ok v =>
          cases he : env.end_session with
          | error e => rw [stop_end_fail_eq env m chunk e hr hf hs he] at h; exact Except.noConfusion h
          | ok pr =>
            cases hne : (rustTrim pr.text).isEmpty with
            | false =>
              cases hi : env.insert_text pr.text with
              | error e =>
                rw [stop_insert_fail_eq env m chunk pr e hr hf hs he hne hi] at h
                exact Except.noConfusion h
              | ok w =>
                rw [stop_success_eq env m chunk pr hr hf hs he hne hi]
                intro _
                rfl
            | true =>
              rw [stop_empty_eq env m chunk pr hr hf hs he hne]
              intro _
              rfl

/-- C7 witness: the preserved part applied concretely: after a successful
`start_recording` from `new`, the invariant holds. -/
theorem C7_invariant_witness :
    finalTextInv (start_recording (envOkWith "hi") DictationStateMachine.new).machine :=
  C7_invariant.2.1 (envOkWith "hi") DictationStateMachine.new (by decide)

/-- C8: from every starting state, `reset_to_idle` sets the state to `Idle`
and clears `partial_text` to the empty string, leaving `final_text` (the
only other controller datum) unchanged. -/
theorem C8_reset_to_idle (m : DictationStateMachine) :
    reset_to_idle m =
      { state := UiState.Idle,
        session := { partial_text := "", final_text := m.session.final_text } } :=
  rfl

/-- C9: settings round-trip: loading from an absent file yields the default
`AppSettings` (`"Option+Space"`, `"placeholder"`, `true`) without error, and
for every settings value `s`, saving `s` and loading again yields `s`. -/
theorem C9_settings_round_trip :
    SettingsStore.load SettingsFile.absent = Except.ok AppSettings.default ∧
    AppSettings.default =
      { global_hotkey := "Option+Space", provider := "placeholder", auto_insert := true } ∧
    ∀ s : AppSettings, SettingsStore.load (SettingsStore.save s) = Except.ok s := by
  refine ⟨rfl, rfl, ?_⟩
  intro s
  cases s with
  | mk gh pv ai =>
    simp [SettingsStore.load, SettingsStore.save, AppSettings.toJson, AppSettings.fromJson,
      Json.lookup, Json.asString, Json.asBool]

/-- C10: for every starting state and every reason string, `fail` sets the
state to `Error reason` and leaves the session (both `partial_text` and
`final_text`) entirely unchanged. -/
theorem C10_fail (m : DictationStateMachine) (reason : String) :
    fail m reason = { state := UiState.Error reason, session := m.session } :=
  rfl

end WhisperSmart
